import Mathlib

/-!
# Verification of the Astarte Grafana datasource backend

Shallow embedding of `pkg/plugin/plugin.go` (package `plugin`) of the
`grafana-astarte-datasource` repository, together with theorems settling the
specification claims about it.

Modelling conventions:
* `time.Time` instants are modelled as `Int` (an abstract totally ordered clock).
* Go `float64` sample values are modelled as `Rat`: the code never performs
  floating-point arithmetic on them — a `float64` is passed through unchanged and
  an `int64` is widened, which we model as the exact injection `Int → Rat`.
* The dynamically typed `v.Value` (`interface{}` in Go) is modelled as the tagged
  variant `GoValue` covering the runtime types the switch statement can see.
* The remote Astarte client is an explicit parameter: a paginator is the sequence
  of page-fetch outcomes it would yield (`GetNextPage` pops the next outcome,
  `HasNextPage` reports whether outcomes remain), and `GetDevice` is a function
  from device id to outcome.
* Fallible Go calls return `Except String α` (the `String` is `err.Error()`);
  a Go runtime panic is an explicit constructor of the result type.
-/

/-- The dynamic type of one sample value as seen by the `switch v.Value.(type)`
statement in `query` (plugin.go:159). `vFloat` is a JSON/BSON double (`float64`),
`vInt` a `int64`, `vString` a string, and the remaining constructors are the
other runtime shapes a decoded Astarte value can take. -/
inductive GoValue where
  | vFloat (x : Rat)
  | vInt (n : Int)
  | vString (s : String)
  | vBool (b : Bool)
  | vNull
  | vArray (xs : List GoValue)
  | vObject (fields : List (String × GoValue))

/-- One datastream sample returned by the Astarte AppEngine paginator:
`v.Timestamp` and the dynamically typed `v.Value`. -/
structure Sample where
  Timestamp : Int
  Value : GoValue

/-- The outcome of one `paginator.GetNextPage()` call: either the
transport/API error or the list of samples of that page. -/
abbrev PageResult : Type := Except String (List Sample)

/-- The query model of plugin.go:114-118: the three string fields unmarshalled
from the query JSON payload. -/
structure QueryModel where
  device : String
  interfaceName : String
  path : String
  deriving Repr, DecidableEq

/-- The error message built at plugin.go:167 when a sample value is neither
`float64` nor `int64`: it names the queried device, interface and path. -/
def typeErrorMsg (qm : QueryModel) : String :=
  "Device " ++ qm.device ++ " has no int/double data on interface "
    ++ qm.interfaceName ++ ", path " ++ qm.path

/-- The inner `for _, v := range page` loop of `query` (plugin.go:158-171):
walk the samples of one page, appending `(v.Timestamp, value)` for `float64`
and `int64` values and aborting with `typeErrorMsg` on any other value type.
Returns the extended `timestamps`/`values` accumulators. -/
def processPage (qm : QueryModel) (ts : List Int) (vs : List Rat) :
    List Sample → Except String (List Int × List Rat)
  | [] => .ok (ts, vs)
  | v :: rest =>
    match v.Value with
    | .vFloat x => processPage qm (ts ++ [v.Timestamp]) (vs ++ [x]) rest
    | .vInt n => processPage qm (ts ++ [v.Timestamp]) (vs ++ [(n : Rat)]) rest
    | _ => .error (typeErrorMsg qm)

/-- The do-while pagination loop of `query` (plugin.go:148-172):
`for ok := true; ok; ok = paginator.HasNextPage() { page, err := paginator.GetNextPage(); ... }`.

The paginator is the list of page outcomes the remote yields; `GetNextPage`
consumes one outcome (an exhausted paginator yields a successful empty page),
`HasNextPage` after a call is emptiness of the remaining outcomes. The second
component of the result counts `GetNextPage` calls performed. -/
def runPages (qm : QueryModel) (ts : List Int) (vs : List Rat) :
    List PageResult → Except String (List Int × List Rat) × Nat
  | [] => (.ok (ts, vs), 1)
  | page :: rest =>
    match page with
    | .error e => (.error e, 1)
    | .ok samples =>
      match processPage qm ts vs samples with
      | .error e => (.error e, 1)
      | .ok (ts', vs') =>
        if rest.isEmpty then (.ok (ts', vs'), 1)
        else
          let r := runPages qm ts' vs' rest
          (r.1, r.2 + 1)

/-- A JSON document as handed to `json.Unmarshal`. -/
inductive JsonValue where
  | jstr (s : String)
  | jnum (n : Int)
  | jbool (b : Bool)
  | jnull
  | jarr (xs : List JsonValue)
  | jobj (fields : List (String × JsonValue))

/-- A raw query payload (`query.JSON`): either syntactically invalid JSON text
or a parsed JSON document. -/
inductive JsonDoc where
  | invalid (raw : String)
  | value (v : JsonValue)

/-- Reading one string-typed struct field during `json.Unmarshal`: a missing
key leaves the Go zero value `""`, a string value is taken, any other value
type is an unmarshal type error. -/
def readStringField (fields : List (String × JsonValue)) (key : String) :
    Except String String :=
  match fields.lookup key with
  | none => .ok ""
  | some (.jstr s) => .ok s
  | some _ => .error ("json: cannot unmarshal value into Go struct field queryModel." ++ key)

/-- `json.Unmarshal(query.JSON, &qm)` for the `queryModel` struct
(plugin.go:128): invalid JSON or a non-object document is an error; from an
object, each of the three known fields is read (unknown fields ignored,
missing fields default to `""`). -/
def unmarshalQueryModel : JsonDoc → Except String QueryModel
  | .invalid _ => .error "invalid character in query JSON"
  | .value (.jobj fields) => do
    let d ← readStringField fields "device"
    let i ← readStringField fields "interfaceName"
    let p ← readStringField fields "path"
    .ok ⟨d, i, p⟩
  | .value _ => .error "json: cannot unmarshal non-object into Go value of type queryModel"

/-- The inclusive query time window `query.TimeRange`. -/
structure TimeRange where
  tFrom : Int
  tTo : Int
  deriving Repr, DecidableEq

/-- One incoming `backend.DataQuery`: its unique `RefID`, JSON payload and
time range. -/
structure DataQuery where
  RefID : String
  queryJSON : JsonDoc
  timeRange : TimeRange

/-- A data frame as assembled at plugin.go:176-182: a `Time` column and a
`Value` column. -/
structure Frame where
  name : String
  timeColumn : List Int
  valueColumn : List Rat
  deriving Repr, DecidableEq

/-- A per-query `backend.DataResponse`: its frames and its error field. -/
structure DataResponse where
  Frames : List Frame
  Error : Option String
  deriving Repr, DecidableEq

/-- The remote side of `GetDatastreamsTimeWindowPaginator`: given the query
model and time range, either the paginator-construction error or the sequence
of page outcomes the constructed paginator will yield. -/
abbrev RemoteSeries : Type := QueryModel → TimeRange → Except String (List PageResult)

/-- The per-query handler `query` (plugin.go:120-190): unmarshal the payload
(error → per-query error response), obtain the paginator (error → per-query
error response), run the pagination loop (error → per-query error response),
and on success wrap the two accumulated columns into one frame. -/
def query (remote : RemoteSeries) (q : DataQuery) : DataResponse :=
  match unmarshalQueryModel q.queryJSON with
  | .error e => { Frames := [], Error := some e }
  | .ok qm =>
    match remote qm q.timeRange with
    | .error e => { Frames := [], Error := some e }
    | .ok pages =>
      match (runPages qm [] [] pages).1 with
      | .error e => { Frames := [], Error := some e }
      | .ok (ts, vs) =>
        { Frames := [{ name := "response", timeColumn := ts, valueColumn := vs }],
          Error := none }

/-- The response map `response.Responses` of `QueryData`, modelled as a partial
map from `RefID` to response; `setResponse` is the Go map store
`response.Responses[q.RefID] = res`. -/
def setResponse (m : String → Option DataResponse) (k : String) (v : DataResponse) :
    String → Option DataResponse :=
  fun k' => if k' = k then some v else m k'

/-- The loop of `QueryData` (plugin.go:102-108) over the remaining queries,
threading the response map. -/
def queryDataLoop (remote : RemoteSeries) (m : String → Option DataResponse) :
    List DataQuery → (String → Option DataResponse)
  | [] => m
  | q :: rest => queryDataLoop remote (setResponse m q.RefID (query remote q)) rest

/-- `QueryData` (plugin.go:95-112): dispatch each query of the batch
individually and store its result in the response map under its `RefID`. -/
def QueryData (remote : RemoteSeries) (queries : List DataQuery) :
    String → Option DataResponse :=
  queryDataLoop remote (fun _ => none) queries

/-- One entry of a device's introspection: interface name with its major and
minor version (the astarte-go `DeviceInterfaceIntrospection`). The Go map is
modelled as an association list; Go map iteration order is unspecified, the
list fixes one such order. -/
structure IntrospectionEntry where
  interfaceName : String
  major : Int
  minor : Int
  deriving Repr, DecidableEq

/-- The part of the astarte-go `DeviceDetails` that `CallResource` reads. -/
structure DeviceDetails where
  Introspection : List IntrospectionEntry
  deriving Repr, DecidableEq

/-- The remote side of `GetDevice`: device id to details or error. -/
abbrev RemoteDevice : Type := String → Except String DeviceDetails

/-- Parsed URL query parameters (`url.Values`): each key maps to the list of
values it occurred with, a key that does not occur maps to the empty list
(Go's `params["k"]` on a `url.Values` without `k` yields a nil slice). -/
def lookupParam (params : List (String × List String)) (key : String) : List String :=
  (params.lookup key).getD []

/-- Serialization of `json.Marshal` on a `[]string` of simple (escape-free)
interface names: `[]` for the empty slice, otherwise the quoted names joined
by commas inside brackets. -/
def jsonMarshalStringList : List String → String
  | [] => "[]"
  | x :: xs =>
    "[" ++ ("\"" ++ x ++ "\"")
      ++ (xs.foldl (fun acc y => acc ++ "," ++ ("\"" ++ y ++ "\"")) "") ++ "]"

/-- The outcome of one `CallResource` invocation: either a Go runtime panic
(an unguarded out-of-range index), or a sent `backend.CallResourceResponse`
with its HTTP status and body bytes. -/
inductive ResourceOutcome where
  | panic (msg : String)
  | response (Status : Nat) (Body : String)
  deriving Repr, DecidableEq

/-- `CallResource` (plugin.go:217-246): read `params["device_id"][0]` (a total
embedding of the unguarded index: an empty value list is the panic case),
call `GetDevice`; on error send HTTP 400 with the error text as body, on
success collect the interface names of the device's introspection and send
HTTP 200 with their JSON array. -/
def CallResource (getDevice : RemoteDevice)
    (params : List (String × List String)) : ResourceOutcome :=
  match lookupParam params "device_id" with
  | [] => .panic "runtime error: index out of range [0] with length 0"
  | deviceID :: _ =>
    match getDevice deviceID with
    | .error e => .response 400 e
    | .ok details =>
      let interfaces := details.Introspection.map (fun entry => entry.interfaceName)
      .response 200 (jsonMarshalStringList interfaces)

/-- A sample value that the switch at plugin.go:159 accepts: `float64` or
`int64`. -/
def numericSample (s : Sample) : Bool :=
  match s.Value with
  | .vFloat _ => true
  | .vInt _ => true
  | _ => false

/-- The number the switch appends for an accepted sample: the `float64`
unchanged, an `int64` widened. -/
def sampleRat (s : Sample) : Rat :=
  match s.Value with
  | .vFloat x => x
  | .vInt n => (n : Rat)
  | _ => 0

/-- A value outside all three cases the specification distinguishes
(float, integer, string): boolean, null, array or object. -/
def otherValue : GoValue → Bool
  | .vFloat _ => false
  | .vInt _ => false
  | .vString _ => false
  | _ => true

theorem processPage_all_numeric (qm : QueryModel) (samples : List Sample) :
    ∀ (ts : List Int) (vs : List Rat),
      (∀ s ∈ samples, numericSample s = true) →
      processPage qm ts vs samples =
        .ok (ts ++ samples.map Sample.Timestamp, vs ++ samples.map sampleRat) := by
  induction samples with
  | nil => intro ts vs _; simp [processPage]
  | cons v rest ih =>
    intro ts vs h
    have hv := h v (List.mem_cons_self ..)
    have hrest := fun s hs => h s (List.mem_cons_of_mem _ hs)
    cases hval : v.Value with
    | vFloat x =>
      simp only [processPage, hval]
      rw [ih _ _ hrest]
      simp [sampleRat, hval]
    | vInt n =>
      simp only [processPage, hval]
      rw [ih _ _ hrest]
      simp [sampleRat, hval]
    | vString s => simp [numericSample, hval] at hv
    | vBool b => simp [numericSample, hval] at hv
    | vNull => simp [numericSample, hval] at hv
    | vArray xs => simp [numericSample, hval] at hv
    | vObject fs => simp [numericSample, hval] at hv

theorem processPage_length (qm : QueryModel) (samples : List Sample) :
    ∀ (ts : List Int) (vs : List Rat) (ts' : List Int) (vs' : List Rat),
      processPage qm ts vs samples = .ok (ts', vs') →
      ts.length = vs.length → ts'.length = vs'.length := by
  induction samples with
  | nil =>
    intro ts vs ts' vs' h hlen
    simp only [processPage] at h
    cases h
    exact hlen
  | cons v rest ih =>
    intro ts vs ts' vs' h hlen
    cases hval : v.Value <;> simp only [processPage, hval] at h
    case vFloat x => exact ih _ _ _ _ h (by simp [hlen])
    case vInt n => exact ih _ _ _ _ h (by simp [hlen])
    all_goals cases h

theorem processPage_abort (qm : QueryModel) (pre : List Sample) :
    ∀ (bad : Sample) (more : List Sample) (ts : List Int) (vs : List Rat),
      (∀ s ∈ pre, numericSample s = true) → numericSample bad = false →
      processPage qm ts vs (pre ++ bad :: more) = .error (typeErrorMsg qm) := by
  induction pre with
  | nil =>
    intro bad more ts vs _ hbad
    cases hval : bad.Value <;> simp [numericSample, hval] at hbad <;>
      simp [processPage, hval]
  | cons v rest ih =>
    intro bad more ts vs h hbad
    have hv := h v (List.mem_cons_self ..)
    have hrest := fun s hs => h s (List.mem_cons_of_mem _ hs)
    cases hval : v.Value <;> simp [numericSample, hval] at hv <;>
      simp only [List.cons_append, processPage, hval] <;>
      exact ih bad more _ _ hrest hbad

theorem runPages_fetches_pos (qm : QueryModel) (pages : List PageResult) :
    ∀ (ts : List Int) (vs : List Rat), 1 ≤ (runPages qm ts vs pages).2 := by
  cases pages with
  | nil => intro ts vs; simp [runPages]
  | cons page rest =>
    intro ts vs
    cases page with
    | error e => simp [runPages]
    | ok samples =>
      simp only [runPages]
      cases hp : processPage qm ts vs samples with
      | error e => simp [hp]
      | ok tv =>
        obtain ⟨ts', vs'⟩ := tv
        simp only [hp]
        by_cases hr : rest.isEmpty <;> simp [hr]

theorem runPages_length (qm : QueryModel) (pages : List PageResult) :
    ∀ (ts : List Int) (vs : List Rat) (ts' : List Int) (vs' : List Rat),
      (runPages qm ts vs pages).1 = .ok (ts', vs') →
      ts.length = vs.length → ts'.length = vs'.length := by
  induction pages with
  | nil =>
    intro ts vs ts' vs' h hlen
    simp only [runPages, Except.ok.injEq, Prod.mk.injEq] at h
    obtain ⟨h1, h2⟩ := h
    subst h1; subst h2
    exact hlen
  | cons page rest ih =>
    intro ts vs ts' vs' h hlen
    cases page with
    | error e => simp [runPages] at h
    | ok samples =>
      simp only [runPages] at h
      cases hp : processPage qm ts vs samples with
      | error e => simp [hp] at h
      | ok tv =>
        obtain ⟨a, b⟩ := tv
        simp only [hp] at h
        by_cases hr : rest.isEmpty
        · simp only [hr, if_true] at h
          simp only [Except.ok.injEq, Prod.mk.injEq] at h
          obtain ⟨h1, h2⟩ := h
          subst h1; subst h2
          exact processPage_length qm samples _ _ _ _ hp hlen
        · simp only [hr, Bool.false_eq_true, if_false] at h
          exact ih _ _ _ _ h (processPage_length qm samples _ _ _ _ hp hlen)

theorem runPages_error_page (qm : QueryModel) (good : List (List Sample)) :
    ∀ (e : String) (rest : List PageResult) (ts : List Int) (vs : List Rat),
      (∀ p ∈ good, ∀ s ∈ p, numericSample s = true) →
      (runPages qm ts vs (good.map Except.ok ++ Except.error e :: rest)).1
        = .error e := by
  induction good with
  | nil => intro e rest ts vs _; simp [runPages]
  | cons p good' ih =>
    intro e rest ts vs h
    have hp := h p (List.mem_cons_self ..)
    have hrest := fun q hq => h q (List.mem_cons_of_mem _ hq)
    simp only [List.map_cons, List.cons_append, runPages]
    rw [processPage_all_numeric qm p _ _ hp]
    have hne : (good'.map Except.ok ++ Except.error e :: rest).isEmpty = false := by
      cases good' <;> simp
    simp only [List.append_eq]
    simp only [hne, Bool.false_eq_true, if_false]
    exact ih e rest _ _ hrest

theorem runPages_bad_sample (qm : QueryModel) (good : List (List Sample)) :
    ∀ (pre : List Sample) (bad : Sample) (more : List Sample) (rest : List PageResult)
      (ts : List Int) (vs : List Rat),
      (∀ p ∈ good, ∀ s ∈ p, numericSample s = true) →
      (∀ s ∈ pre, numericSample s = true) →
      numericSample bad = false →
      (runPages qm ts vs (good.map Except.ok ++ .ok (pre ++ bad :: more) :: rest)).1
        = .error (typeErrorMsg qm) := by
  induction good with
  | nil =>
    intro pre bad more rest ts vs _ hpre hbad
    simp only [List.map_nil, List.nil_append, runPages]
    rw [processPage_abort qm pre bad more _ _ hpre hbad]
  | cons p good' ih =>
    intro pre bad more rest ts vs h hpre hbad
    have hp := h p (List.mem_cons_self ..)
    have hrest := fun q hq => h q (List.mem_cons_of_mem _ hq)
    simp only [List.map_cons, List.cons_append, runPages]
    rw [processPage_all_numeric qm p _ _ hp]
    have hne : (good'.map Except.ok ++ Except.ok (pre ++ bad :: more) :: rest).isEmpty
        = false := by
      cases good' <;> simp
    simp only [List.append_eq]
    simp only [hne, Bool.false_eq_true, if_false]
    exact ih pre bad more rest _ _ hrest hpre hbad

theorem runPages_count_all_ok (qm : QueryModel) (good : List (List Sample)) :
    ∀ (ts : List Int) (vs : List Rat),
      good ≠ [] →
      (∀ p ∈ good, ∀ s ∈ p, numericSample s = true) →
      (runPages qm ts vs (good.map Except.ok)).2 = good.length := by
  induction good with
  | nil => intro ts vs hne _; exact absurd rfl hne
  | cons p good' ih =>
    intro ts vs _ h
    have hp := h p (List.mem_cons_self ..)
    have hrest := fun q hq => h q (List.mem_cons_of_mem _ hq)
    cases good' with
    | nil =>
      simp only [List.map_cons, List.map_nil, runPages]
      rw [processPage_all_numeric qm p _ _ hp]
      simp
    | cons q good'' =>
      simp only [List.map_cons, runPages]
      rw [processPage_all_numeric qm p _ _ hp]
      simp only [List.isEmpty_cons, Bool.false_eq_true, if_false]
      have ih' := ih (ts ++ p.map Sample.Timestamp) (vs ++ p.map sampleRat)
        (by simp) hrest
      simp only [List.map_cons, runPages] at ih'
      rw [ih']
      simp

theorem query_unmarshal_error (remote : RemoteSeries) (q : DataQuery) (e : String)
    (hq : unmarshalQueryModel q.queryJSON = .error e) :
    query remote q = { Frames := [], Error := some e } := by
  unfold query
  rw [hq]

theorem query_remote_error (remote : RemoteSeries) (q : DataQuery) (qm : QueryModel)
    (e : String) (hq : unmarshalQueryModel q.queryJSON = .ok qm)
    (hr : remote qm q.timeRange = .error e) :
    query remote q = { Frames := [], Error := some e } := by
  unfold query
  rw [hq]
  simp only [hr]

theorem query_run_error (remote : RemoteSeries) (q : DataQuery) (qm : QueryModel)
    (pages : List PageResult) (e : String)
    (hq : unmarshalQueryModel q.queryJSON = .ok qm)
    (hr : remote qm q.timeRange = .ok pages)
    (hrun : (runPages qm [] [] pages).1 = .error e) :
    query remote q = { Frames := [], Error := some e } := by
  unfold query
  rw [hq]
  simp only [hr, hrun]

theorem query_run_ok (remote : RemoteSeries) (q : DataQuery) (qm : QueryModel)
    (pages : List PageResult) (ts : List Int) (vs : List Rat)
    (hq : unmarshalQueryModel q.queryJSON = .ok qm)
    (hr : remote qm q.timeRange = .ok pages)
    (hrun : (runPages qm [] [] pages).1 = .ok (ts, vs)) :
    query remote q =
      { Frames := [{ name := "response", timeColumn := ts, valueColumn := vs }],
        Error := none } := by
  unfold query
  rw [hq]
  simp only [hr, hrun]

theorem otherValue_not_numeric (s : Sample) (h : otherValue s.Value = true) :
    numericSample s = false := by
  unfold numericSample
  cases hv : s.Value
  case vFloat x => rw [hv] at h; simp [otherValue] at h
  case vInt n => rw [hv] at h; simp [otherValue] at h
  case vString str => rw [hv] at h
  all_goals rfl

theorem queryDataLoop_not_mem (remote : RemoteSeries) (queries : List DataQuery) :
    ∀ (m : String → Option DataResponse) (k : String),
      k ∉ queries.map DataQuery.RefID →
      queryDataLoop remote m queries k = m k := by
  induction queries with
  | nil => intro m k _; rfl
  | cons q rest ih =>
    intro m k hk
    simp only [List.map_cons, List.mem_cons, not_or] at hk
    obtain ⟨hk1, hk2⟩ := hk
    simp only [queryDataLoop]
    rw [ih _ _ hk2]
    simp [setResponse, hk1]

theorem queryDataLoop_lookup (remote : RemoteSeries) (queries : List DataQuery) :
    ∀ (m : String → Option DataResponse) (q : DataQuery),
      q ∈ queries → (queries.map DataQuery.RefID).Nodup →
      queryDataLoop remote m queries q.RefID = some (query remote q) := by
  induction queries with
  | nil => intro m q hq _; cases hq
  | cons p rest ih =>
    intro m q hq hnd
    simp only [List.map_cons, List.nodup_cons] at hnd
    obtain ⟨hp, hnd'⟩ := hnd
    cases hq with
    | head =>
      simp only [queryDataLoop]
      rw [queryDataLoop_not_mem remote rest _ _ hp]
      simp [setResponse]
    | tail _ hq' =>
      simp only [queryDataLoop]
      exact ih _ _ hq' hnd'

/-- C1 counterexample: a sample whose value is the numeric-looking string
"3.14" is not parsed as a float. The switch at plugin.go:159 has only
`float64` and `int64` cases, so the string sample falls into the default
branch: the whole fetch aborts with the typed error and zero samples are
returned — the later float sample of the same page is dropped too — refuting
the claim that 3.14 is appended and the fetch continues without error. -/
theorem C1_counterexample :
    query (fun _ _ => .ok [Except.ok [⟨1, .vString "3.14"⟩, ⟨2, .vFloat 1⟩]])
      ⟨"A", .value (.jobj [("device", .jstr "d"), ("interfaceName", .jstr "i"),
        ("path", .jstr "p")]), ⟨0, 10⟩⟩
      = { Frames := [],
          Error := some "Device d has no int/double data on interface i, path p" } := by
  rfl

/-- C1 (amended): a string-valued sample — numeric-looking or not — is never
parsed and never skipped: it falls into the default case of the value switch,
so the entire series fetch aborts with the typed error naming device,
interface and path, and no series data is returned. -/
theorem C1_string_aborts_fetch
    (remote : RemoteSeries) (q : DataQuery) (qm : QueryModel)
    (good : List (List Sample)) (pre : List Sample) (bad : Sample) (str : String)
    (more : List Sample) (rest : List PageResult)
    (hq : unmarshalQueryModel q.queryJSON = .ok qm)
    (hr : remote qm q.timeRange
      = .ok (good.map Except.ok ++ Except.ok (pre ++ bad :: more) :: rest))
    (hgood : ∀ p ∈ good, ∀ s ∈ p, numericSample s = true)
    (hpre : ∀ s ∈ pre, numericSample s = true)
    (hbad : bad.Value = .vString str) :
    query remote q = { Frames := [], Error := some (typeErrorMsg qm) } := by
  have hnb : numericSample bad = false := by
    unfold numericSample
    rw [hbad]
  exact query_run_error remote q qm _ _ hq hr
    (runPages_bad_sample qm good pre bad more rest [] [] hgood hpre hnb)

/-- Witness for C1: a concrete query in which the non-numeric string "abc"
aborts the fetch with the typed error. -/
theorem C1_witness :
    query (fun _ _ => .ok [Except.ok [⟨0, .vInt 4⟩, ⟨1, .vString "abc"⟩]])
      ⟨"A", .value (.jobj [("device", .jstr "dev"), ("interfaceName", .jstr "ifc"),
        ("path", .jstr "/x")]), ⟨0, 10⟩⟩
      = { Frames := [],
          Error := some "Device dev has no int/double data on interface ifc, path /x" } :=
  C1_string_aborts_fetch _ _ ⟨"dev", "ifc", "/x"⟩ [] [⟨0, .vInt 4⟩] ⟨1, .vString "abc"⟩
    "abc" [] [] (by rfl) (by rfl) (by simp) (by simp [numericSample]) (by rfl)

/-- C2 (confirmed): if retrieval of some page fails, `query` aborts at that
page and returns only the underlying transport/API error: the response
carries no frames at all, so the samples accumulated from the earlier,
successfully retrieved pages are discarded and zero samples reach the
caller. -/
theorem C2_page_failure_discards_partial_series
    (remote : RemoteSeries) (q : DataQuery) (qm : QueryModel)
    (good : List (List Sample)) (e : String) (rest : List PageResult)
    (hq : unmarshalQueryModel q.queryJSON = .ok qm)
    (hr : remote qm q.timeRange = .ok (good.map Except.ok ++ Except.error e :: rest))
    (hgood : ∀ p ∈ good, ∀ s ∈ p, numericSample s = true) :
    query remote q = { Frames := [], Error := some e } :=
  query_run_error remote q qm _ _ hq hr (runPages_error_page qm good e rest [] [] hgood)

/-- Witness for C2: a paginator that delivers one good page and then fails
yields zero samples and the transport error. -/
theorem C2_witness :
    query (fun _ _ => .ok [Except.ok [⟨1, .vFloat 2⟩], Except.error "transport failure"])
      ⟨"A", .value (.jobj [("device", .jstr "d"), ("interfaceName", .jstr "i"),
        ("path", .jstr "p")]), ⟨0, 10⟩⟩
      = { Frames := [], Error := some "transport failure" } :=
  C2_page_failure_discards_partial_series _ _ ⟨"d", "i", "p"⟩ [[⟨1, .vFloat 2⟩]]
    "transport failure" [] (by rfl) (by rfl) (by simp [numericSample])

/-- C3 (confirmed): every frame a successful query returns has timestamp and
value columns of equal length; the invariant holds at every point of the
incremental construction (`runPages` preserves it from any equal-length
accumulators), and each accepted sample appends exactly one timestamp and
one value. The columns are plain immutable lists, never mutated after being
wrapped into the frame. -/
theorem C3_parallel_columns (remote : RemoteSeries) (q : DataQuery) :
    (∀ f ∈ (query remote q).Frames, f.timeColumn.length = f.valueColumn.length) ∧
    (∀ (qm : QueryModel) (pages : List PageResult) (ts : List Int) (vs : List Rat)
      (ts' : List Int) (vs' : List Rat),
      (runPages qm ts vs pages).1 = .ok (ts', vs') → ts.length = vs.length →
      ts'.length = vs'.length) ∧
    (∀ (qm : QueryModel) (ts : List Int) (vs : List Rat) (s : Sample),
      numericSample s = true →
      processPage qm ts vs [s] = .ok (ts ++ [s.Timestamp], vs ++ [sampleRat s])) := by
  refine ⟨?_, ?_, ?_⟩
  · intro f hf
    unfold query at hf
    cases hu : unmarshalQueryModel q.queryJSON with
    | error e => rw [hu] at hf; simp at hf
    | ok qm =>
      rw [hu] at hf
      cases hr : remote qm q.timeRange with
      | error e => simp only [hr] at hf; simp at hf
      | ok pages =>
        simp only [hr] at hf
        cases hrun : (runPages qm [] [] pages).1 with
        | error e => simp only [hrun] at hf; simp at hf
        | ok tv =>
          obtain ⟨ts, vs⟩ := tv
          simp only [hrun] at hf
          simp at hf
          subst hf
          simpa using runPages_length qm pages [] [] ts vs hrun rfl
  · exact fun qm pages ts vs ts' vs' h1 h2 => runPages_length qm pages ts vs ts' vs' h1 h2
  · intro qm ts vs s hs
    rw [processPage_all_numeric qm [s] ts vs (by simpa using hs)]
    simp

/-- Witness for C3: the frame produced by a concrete two-sample query has
columns of equal length. -/
theorem C3_witness :
    ({ name := "response", timeColumn := [4, 5], valueColumn := [7, 3] } : Frame).timeColumn.length
      = ({ name := "response", timeColumn := [4, 5], valueColumn := [7, 3] } : Frame).valueColumn.length :=
  (C3_parallel_columns (fun _ _ => .ok [Except.ok [⟨4, .vFloat 7⟩, ⟨5, .vInt 3⟩]])
    ⟨"A", .value (.jobj [("device", .jstr "d"), ("interfaceName", .jstr "i"),
      ("path", .jstr "p")]), ⟨0, 10⟩⟩).1
    { name := "response", timeColumn := [4, 5], valueColumn := [7, 3] }
    (by decide)

/-- C4 (confirmed): the pagination loop is a do-while — `GetNextPage` is
called at least once for every paginator before any `HasNextPage` check, an
exhausted paginator (empty time window) still costs exactly one fetch and
yields the unchanged accumulators as a success, and over a nonempty run of
successful all-numeric pages the loop performs exactly one fetch per page,
continuing precisely while `HasNextPage` reports more. -/
theorem C4_do_while_pagination (qm : QueryModel) (ts : List Int) (vs : List Rat) :
    (∀ pages : List PageResult, 1 ≤ (runPages qm ts vs pages).2) ∧
    runPages qm ts vs [] = (.ok (ts, vs), 1) ∧
    (∀ good : List (List Sample), good ≠ [] →
      (∀ p ∈ good, ∀ s ∈ p, numericSample s = true) →
      (runPages qm ts vs (good.map Except.ok)).2 = good.length) :=
  ⟨fun pages => runPages_fetches_pos qm pages ts vs, rfl,
    fun good h1 h2 => runPages_count_all_ok qm good ts vs h1 h2⟩

/-- Witness for C4: a single successful empty page is fetched exactly once. -/
theorem C4_witness :
    (runPages ⟨"d", "i", "p"⟩ [] [] ([[]].map Except.ok)).2
      = [([] : List Sample)].length :=
  (C4_do_while_pagination ⟨"d", "i", "p"⟩ [] []).2.2 [[]] (by simp) (by simp)

/-- C5 (confirmed): a sample whose value is neither a 64-bit float nor a
64-bit integer nor a string (boolean, null, array, object) makes the entire
series fetch abort immediately: the response carries the typed error naming
the queried device, interface and path, and no series data at all. -/
theorem C5_other_type_aborts_fetch
    (remote : RemoteSeries) (q : DataQuery) (qm : QueryModel)
    (good : List (List Sample)) (pre : List Sample) (bad : Sample)
    (more : List Sample) (rest : List PageResult)
    (hq : unmarshalQueryModel q.queryJSON = .ok qm)
    (hr : remote qm q.timeRange
      = .ok (good.map Except.ok ++ Except.ok (pre ++ bad :: more) :: rest))
    (hgood : ∀ p ∈ good, ∀ s ∈ p, numericSample s = true)
    (hpre : ∀ s ∈ pre, numericSample s = true)
    (hbad : otherValue bad.Value = true) :
    query remote q =
      { Frames := [],
        Error := some ("Device " ++ qm.device ++ " has no int/double data on interface "
          ++ qm.interfaceName ++ ", path " ++ qm.path) } :=
  query_run_error remote q qm _ _ hq hr
    (runPages_bad_sample qm good pre bad more rest [] [] hgood hpre
      (otherValue_not_numeric bad hbad))

/-- Witness for C5: a boolean sample aborts a concrete fetch with the typed
error naming device, interface and path. -/
theorem C5_witness :
    query (fun _ _ => .ok [Except.ok [⟨3, .vBool true⟩]])
      ⟨"A", .value (.jobj [("device", .jstr "dev1"),
        ("interfaceName", .jstr "com.example.If"), ("path", .jstr "/v")]), ⟨0, 9⟩⟩
      = { Frames := [],
          Error := some
            "Device dev1 has no int/double data on interface com.example.If, path /v" } :=
  C5_other_type_aborts_fetch _ _ ⟨"dev1", "com.example.If", "/v"⟩ [] [] ⟨3, .vBool true⟩
    [] [] (by rfl) (by rfl) (by simp) (by simp) (by rfl)

/-- C6 (confirmed): in a batch with pairwise distinct `RefID`s, each query is
dispatched independently and the response map entry under a query's own
`RefID` is exactly the result of running that query alone — a function of
that query and the shared read-only remote only — so a failure of any other
query of the batch (including a JSON-unmarshal failure) cannot prevent,
alter or corrupt it. -/
theorem C6_batch_isolation (remote : RemoteSeries) (queries : List DataQuery)
    (q : DataQuery) (hq : q ∈ queries)
    (hnd : (queries.map DataQuery.RefID).Nodup) :
    QueryData remote queries q.RefID = some (query remote q) :=
  queryDataLoop_lookup remote queries _ q hq hnd

/-- Witness for C6: in a three-query batch whose second payload is malformed
JSON, the third query's entry is its own independent result. -/
theorem C6_witness :
    QueryData (fun _ _ => .ok [Except.ok [⟨1, .vInt 5⟩]])
      [⟨"A", .value (.jobj [("device", .jstr "d1"), ("interfaceName", .jstr "i1"),
          ("path", .jstr "p1")]), ⟨0, 10⟩⟩,
        ⟨"B", .invalid "not json", ⟨0, 10⟩⟩,
        ⟨"C", .value (.jobj [("device", .jstr "d3"), ("interfaceName", .jstr "i3"),
          ("path", .jstr "p3")]), ⟨0, 10⟩⟩]
      "C"
      = some (query (fun _ _ => .ok [Except.ok [⟨1, .vInt 5⟩]])
          ⟨"C", .value (.jobj [("device", .jstr "d3"), ("interfaceName", .jstr "i3"),
            ("path", .jstr "p3")]), ⟨0, 10⟩⟩) :=
  C6_batch_isolation _ _ _
    (List.Mem.tail _ (List.Mem.tail _ (List.Mem.head _)))
    (by decide)

/-- C7 counterexample: a resource request carrying `name` and `major` (and no
`device_id`) is not routed to an interface lookup and gets no client error
either: `CallResource` reads `params["device_id"][0]` unconditionally, so the
request panics on the out-of-range index and no response is sent — refuting
the claimed three-case classification. -/
theorem C7_counterexample :
    CallResource (fun _ => .error "remote not contacted")
      [("name", ["org.example.Temp"]), ("major", ["1"])]
      = .panic "runtime error: index out of range [0] with length 0" := by
  rfl

/-- C7 (amended): the router implements only the `device_id` case. A request
whose query string lacks `device_id` — in particular one supplying both
`name` and `major` — is never classified further: the unguarded index into
the empty `device_id` value list panics instead of producing the interface
lookup or an "unrecognized request" client error, and the remote platform is
never contacted for it. -/
theorem C7_only_device_id_route (getDevice : RemoteDevice)
    (params : List (String × List String)) (iname mj : String)
    (hd : lookupParam params "device_id" = [])
    (_hn : lookupParam params "name" = [iname])
    (_hm : lookupParam params "major" = [mj]) :
    CallResource getDevice params
      = .panic "runtime error: index out of range [0] with length 0" := by
  unfold CallResource
  rw [hd]

/-- Witness for C7: a concrete name+major request panics. -/
theorem C7_witness :
    CallResource (fun _ => .error "unused") [("name", ["com.example.If"]), ("major", ["2"])]
      = .panic "runtime error: index out of range [0] with length 0" :=
  C7_only_device_id_route _ _ "com.example.If" "2" (by rfl) (by rfl) (by rfl)

/-- C8 counterexample: for a device whose introspection holds the interface
`org.example.Temp` at version 1.2, the 200 response body is the JSON array of
bare interface names, not the claimed array of name/major/minor objects. -/
theorem C8_counterexample :
    CallResource
      (fun d => if d = "abc123"
        then .ok ⟨[⟨"org.example.Temp", 1, 2⟩]⟩
        else .error "device not found")
      [("device_id", ["abc123"])]
      = .response 200 "[\"org.example.Temp\"]"
    ∧ "[\"org.example.Temp\"]"
        ≠ "[\x7b\"name\":\"org.example.Temp\",\"major\":1,\"minor\":2\x7d]" := by
  exact ⟨by rfl, by decide⟩

/-- C8 (amended): when `device_id` is present and the introspection fetch
succeeds, the router sends HTTP 200 with a JSON array containing one bare
interface-name string per interface the device implements — the major and
minor versions are dropped — and the empty array `[]` (not an error) when the
device implements no interfaces. -/
theorem C8_device_route_names_only (getDevice : RemoteDevice)
    (params : List (String × List String)) (d : String) (ds : List String)
    (details : DeviceDetails)
    (hd : lookupParam params "device_id" = d :: ds)
    (hg : getDevice d = .ok details) :
    CallResource getDevice params
      = .response 200
          (jsonMarshalStringList (details.Introspection.map IntrospectionEntry.interfaceName))
    ∧ (details.Introspection = [] →
        CallResource getDevice params = .response 200 "[]") := by
  constructor
  · unfold CallResource
    rw [hd]
    simp only [hg]
  · intro hempty
    unfold CallResource
    rw [hd]
    simp only [hg, hempty]
    simp [jsonMarshalStringList]

/-- Witness for C8: a concrete device with two interfaces yields the array of
their names. -/
theorem C8_witness :
    CallResource (fun _ => .ok ⟨[⟨"a.b.C", 0, 1⟩, ⟨"a.b.D", 2, 0⟩]⟩)
      [("device_id", ["devX"])]
      = .response 200 "[\"a.b.C\",\"a.b.D\"]" := by
  rw [(C8_device_route_names_only (fun _ => .ok ⟨[⟨"a.b.C", 0, 1⟩, ⟨"a.b.D", 2, 0⟩]⟩)
    [("device_id", ["devX"])] "devX" [] ⟨[⟨"a.b.C", 0, 1⟩, ⟨"a.b.D", 2, 0⟩]⟩
    (by rfl) (by rfl)).1]
  rfl

/-- C9 counterexample: the payload that is the empty JSON object — device and
interface name both absent — does not produce a per-query validation error:
`json.Unmarshal` fills the fields with `""` and the dispatcher proceeds to
request the remote paginator with those empty values; the response carries
the remote's own error, proving a remote call was issued. -/
theorem C9_counterexample :
    query (fun qm _ => .error ("paginator requested for device:" ++ qm.device
        ++ ":interface:" ++ qm.interfaceName))
      ⟨"A", .value (.jobj []), ⟨0, 5⟩⟩
      = { Frames := [], Error := some "paginator requested for device::interface:" } := by
  rfl

/-- C9 (amended): the backend dispatcher attaches a per-query error only when
`json.Unmarshal` itself fails; a payload in which `device` and
`interfaceName` are absent (or empty) unmarshals successfully to the
all-empty query model, is still treated as runnable, and the dispatcher
issues the remote paginator request for it, surfacing the remote's outcome.
The non-empty validation exists only in the frontend query editor. -/
theorem C9_no_backend_validation :
    unmarshalQueryModel (.value (.jobj [])) = .ok ⟨"", "", ""⟩ ∧
    (∀ (remote : RemoteSeries) (q : DataQuery) (e : String),
      q.queryJSON = .value (.jobj []) →
      remote ⟨"", "", ""⟩ q.timeRange = .error e →
      query remote q = { Frames := [], Error := some e }) :=
  ⟨rfl, fun remote q e hjson hrem =>
    query_remote_error remote q ⟨"", "", ""⟩ e (by rw [hjson]; rfl) hrem⟩

/-- Witness for C9: a concrete empty-object payload reaches the remote with
the empty device identifier. -/
theorem C9_witness :
    query (fun qm _ => if qm.device = "" then .error "remote call issued for empty device"
        else .ok [])
      ⟨"A", .value (.jobj []), ⟨0, 5⟩⟩
      = { Frames := [], Error := some "remote call issued for empty device" } :=
  C9_no_backend_validation.2 _ _ "remote call issued for empty device" rfl (by rfl)

/-- C10 (confirmed): for every resource request whose parsed query parameters
contain no `device_id` value, `CallResource` performs the unguarded index
`params["device_id"][0]` on an empty list: in this total embedding the panic
branch is taken, so no response is ever sent for such a request. -/
theorem C10_missing_device_id_panics (getDevice : RemoteDevice)
    (params : List (String × List String))
    (hd : lookupParam params "device_id" = []) :
    CallResource getDevice params
      = .panic "runtime error: index out of range [0] with length 0" := by
  unfold CallResource
  rw [hd]

/-- Witness for C10: the request with an empty query string panics. -/
theorem C10_witness :
    CallResource (fun _ => .error "unused") []
      = .panic "runtime error: index out of range [0] with length 0" :=
  C10_missing_device_id_panics _ [] (by rfl)
